import Mathlib

/-!
Verification of the appointment-booking agent: a shallow embedding of the
calendar backends (`app/calendar/mock_calendar.py`, `app/calendar/google_calendar.py`),
the appointment-draft merge and dialogue nodes (`app/agent/nodes.py`), the data
model (`app/models/schemas.py`) and the validator (`app/utils/validators.py`).

Time is modelled at minute granularity: a `datetime` is the number of minutes
since a fixed epoch whose day 0 is a Monday.  `date()` is division by 1440 and
`weekday()` is the day number mod 7 (Monday = 0, matching Python).
-/

namespace BookingAgent

/-- Python `datetime.date()` at minute granularity: the day index. -/
def dateOf (t : Nat) : Nat := t / 1440

/-- Python `date.weekday()`: Monday = 0 ... Sunday = 6 (epoch day 0 is a Monday). -/
def weekday (d : Nat) : Nat := d % 7

/-- Business-hours open, `time(9, 0)`, as minutes after midnight. -/
def businessStart : Nat := 9 * 60

/-- Business-hours close, `time(18, 0)`, as minutes after midnight. -/
def businessEnd : Nat := 18 * 60

/-- Schema `TimeSlot` of `app/models/schemas.py`. -/
structure TimeSlot where
  start_time : Nat
  end_time : Nat
  duration_minutes : Nat
  deriving Repr, DecidableEq

/-- Schema `CalendarEvent` of `app/models/schemas.py` (the `location` field is never
consulted by the code under verification and is omitted). -/
structure CalendarEvent where
  id : String
  title : String
  description : Option String
  start_time : Nat
  end_time : Nat
  attendees : List String
  deriving Repr, DecidableEq

/-- Schema `BookingResponse` of `app/models/schemas.py`.  The pydantic model declares
exactly `success`, `message` and `event_id`; the `error_code` keyword passed by
`MockCalendar` is not a declared field and is dropped by the model. -/
structure BookingResponse where
  success : Bool
  message : String
  event_id : Option String
  deriving Repr, DecidableEq

/-- Schema `AvailabilityResponse` of `app/models/schemas.py` (the echoed metadata fields
`business_hours_start`, `business_hours_end`, `timezone`, `total_slots` are
constants irrelevant to every claim and are omitted). -/
structure AvailabilityResponse where
  available_slots : List TimeSlot
  requested_date : Nat
  deriving Repr, DecidableEq

/-- Display formatting `DateParser.format_datetime`, used only to render replies; the strftime
text is irrelevant to every claim, so a datetime is rendered as its minute
count. -/
def format_datetime (t : Nat) : String := toString t

namespace MockCalendar

/-- The body of the `while` loop of `MockCalendar._generate_day_slots`:
starting at `cur`, emit a slot of `D` minutes and step 30 minutes while the
slot still ends by `stop`.  `fuel` bounds the iteration count; the business
window is 540 minutes, so the guard fails after at most 19 true iterations and
any `fuel ≥ 20` yields exactly the loop's output. -/
def generate_day_slots_go (fuel : Nat) (cur stop D : Nat) : List TimeSlot :=
  match fuel with
  | 0 => []
  | fuel + 1 =>
    if cur + D ≤ stop then
      { start_time := cur, end_time := cur + D, duration_minutes := D } ::
        generate_day_slots_go fuel (cur + 30) stop D
    else []

/-- Method `MockCalendar._generate_day_slots`: all slots of `D` minutes for day
`day`, from business open stepping in 30-minute increments, stopping once a
slot would run past business close. -/
def generate_day_slots (day : Nat) (D : Nat) : List TimeSlot :=
  generate_day_slots_go 20 (day * 1440 + businessStart) (day * 1440 + businessEnd) D

/-- Method `MockCalendar._filter_conflicting_slots`: keep a slot iff no stored event
satisfies `slot.start_time < event.end_time and slot.end_time > event.start_time`. -/
def filter_conflicting_slots (events : List CalendarEvent) (slots : List TimeSlot) :
    List TimeSlot :=
  slots.filter fun slot =>
    events.all fun event =>
      !(decide (slot.start_time < event.end_time) && decide (slot.end_time > event.start_time))

/-- The day loop of `MockCalendar.get_availability`:
`current_date = start_date.date()` up to and including `end_date.date()`. -/
def dayRange (d0 d1 : Nat) : List Nat := (List.range (d1 + 1 - d0)).map (d0 + ·)

/-- Method `MockCalendar.get_availability`: for each day of the range, skip weekends,
generate the day's candidate slots and keep the conflict-free ones. -/
def get_availability (events : List CalendarEvent) (start_date end_date : Nat)
    (duration_minutes : Nat) : AvailabilityResponse :=
  { available_slots :=
      (dayRange (dateOf start_date) (dateOf end_date)).flatMap fun d =>
        if weekday d ≥ 5 then []
        else filter_conflicting_slots events (generate_day_slots d duration_minutes)
    requested_date := start_date }

/-- The event store `MockCalendar.self.events`: an insertion-ordered dict from
event id to event. -/
abbrev EventStore := List (String × CalendarEvent)

/-- Python dict assignment `self.events[event_id] = event`: replace in place if
the key exists, else append. -/
def dictInsert (store : EventStore) (k : String) (v : CalendarEvent) : EventStore :=
  if store.any (fun p => p.1 == k) then
    store.map fun p => if p.1 == k then (k, v) else p
  else store ++ [(k, v)]

/-- The event id `f"event_-LEN-_-TIMESTAMP-"` generated by
`MockCalendar.book_appointment` from the store size and the current clock. -/
def genEventId (storeLen : Nat) (now : Nat) : String :=
  "event_" ++ toString storeLen ++ "_" ++ toString now

/-- Python `description or "Appointment booked via AI assistant"`: the default
applies when the description is `None` or empty. -/
def descriptionOrDefault (description : Option String) : String :=
  match description with
  | some s => if s = "" then "Appointment booked via AI assistant" else s
  | none => "Appointment booked via AI assistant"

/-- Method `MockCalendar.book_appointment`.  Here `now` is the wall clock used only for
the generated event id.  Returns the response together with the updated store;
every branch (including the `except` that the source can never reach, since no
statement in the `try` raises) returns a well-formed `BookingResponse`.
The Python success message quotes the title; the quotes are immaterial to every
claim and are not reproduced. -/
def book_appointment (store : EventStore) (now : Nat) (title : String)
    (start_time end_time : Nat) (description : Option String)
    (attendees : List String) : BookingResponse × EventStore :=
  if start_time ≥ end_time then
    ({ success := false, message := "Start time must be before end time", event_id := none },
     store)
  else if (get_availability (store.map Prod.snd) start_time end_time
      (end_time - start_time)).available_slots.isEmpty then
    ({ success := false, message := "The requested time slot is not available",
       event_id := none }, store)
  else
    ({ success := true,
       message := "Appointment " ++ title ++ " booked successfully for " ++
         format_datetime start_time,
       event_id := some (genEventId store.length now) },
     dictInsert store (genEventId store.length now)
       { id := genEventId store.length now, title := title,
         description := some (descriptionOrDefault description),
         start_time := start_time, end_time := end_time, attendees := attendees })

end MockCalendar

/-- A Google Calendar API event as consumed by
`GoogleCalendar._filter_conflicting_slots` and `GoogleCalendar.is_time_available`:
`all_day` records that the start string carries no time component (no `T`), in
which case the event is skipped; an event whose datetime strings fail to parse
is likewise skipped and is modelled the same way. -/
structure GoogleEvent where
  all_day : Bool
  start_time : Nat
  end_time : Nat
  deriving Repr, DecidableEq

namespace GoogleCalendar

/-- Method `GoogleCalendar._filter_conflicting_slots`: keep a slot iff no fetched
precise-time event satisfies
`slot.start_time < event_end and slot.end_time > event_start`. -/
def filter_conflicting_slots (slots : List TimeSlot) (events : List GoogleEvent) :
    List TimeSlot :=
  slots.filter fun slot =>
    events.all fun event =>
      event.all_day ||
        !(decide (slot.start_time < event.end_time) && decide (slot.end_time > event.start_time))

/-- Method `GoogleCalendar.is_time_available` (service available, query succeeds):
the same conflict predicate applied to one caller-supplied interval,
short-circuiting on the first conflicting event; `events` is the fetched list. -/
def is_time_available (events : List GoogleEvent) (start_time end_time : Nat) : Bool :=
  events.all fun event =>
    event.all_day ||
      !(decide (start_time < event.end_time) && decide (end_time > event.start_time))

end GoogleCalendar

/-- Schema `ConversationStateEnum` of `app/models/schemas.py`. -/
inductive ConversationStateEnum where
  | INITIAL
  | COLLECTING_DETAILS
  | CHECKING_AVAILABILITY
  | SUGGESTING_SLOTS
  | CONFIRMING_BOOKING
  | BOOKING_COMPLETE
  deriving Repr, DecidableEq

/-- Schema `AppointmentRequest` of `app/models/schemas.py` (the `preferred_times` and
`attendees` lists are never read or written by the merge or the booking nodes
and are omitted).  Durations are modelled as `Nat` minutes: every duration the
code stores is a non-negative minute count. -/
structure AppointmentRequest where
  title : Option String
  description : Option String
  start_date : Option Nat
  end_date : Option Nat
  duration_minutes : Option Nat
  deriving Repr, DecidableEq

/-- Python truthiness of an optional integer: `None` and `0` are falsy. -/
def truthyNat (o : Option Nat) : Bool :=
  match o with
  | some n => n != 0
  | none => false

/-- Python truthiness of an optional string: `None` and `""` are falsy. -/
def truthyStr (o : Option String) : Bool :=
  match o with
  | some s => s != ""
  | none => false

/-- The structured appointment hints extracted from the user message
(`ConversationNodes._extract_appointment_info_with_ai`).  Datetime fields are
the already-parsed instants: a missing, falsy or unparseable ISO string (the
`try/except: pass` around `datetime.fromisoformat`) behaves exactly like an
absent field, so it is modelled as `none`.  When no OpenAI client is
configured the whole extraction step is skipped, which coincides with the
all-`none` extraction. -/
structure ExtractionResult where
  start_time : Option Nat
  end_time : Option Nat
  duration : Option Nat
  title : Option String
  description : Option String
  deriving Repr, DecidableEq

/-- The deterministic fallback extractors of `app/utils/date_parser.py`
consumed by the merge.  `parse_date_time` delegates first to the external
`dateutil` fuzzy parser, whose behaviour is not part of this repository, so
the bundle is modelled as an arbitrary triple of pure functions of the
utterance (the real ones are deterministic); theorems quantify over it. -/
structure Parsers where
  parse_time_range : String → Option (Nat × Nat)
  parse_date_time : String → Option Nat
  parse_duration : String → Option Nat

/-- ASCII lowering of one character (`str.lower` on the inputs at stake). -/
def lowerChar (c : Char) : Char :=
  if c.isUpper then Char.ofNat (c.toNat + 32) else c

/-- Python `str.lower()` (ASCII), written over the character list so that it
evaluates by kernel reduction. -/
def strLower (s : String) : String := ⟨s.data.map lowerChar⟩

/-- Substring occurrence on character lists (Python `pat in s`). -/
def charsContain (pat : List Char) : List Char → Bool
  | [] => pat.isEmpty
  | c :: t => pat.isPrefixOf (c :: t) || charsContain pat t

/-- Python `str` containment test, e.g. `keyword in user_message.lower()`. -/
def strContains (s pat : String) : Bool := charsContain pat.data s.data

/-- The keyword-to-label table of `collect_appointment_details_with_ai`
(line 256): first matching keyword wins, generic default `"Meeting"`. -/
def meeting_title_for (u : String) : String :=
  if strContains (strLower u) "meeting" then "Meeting"
  else if strContains (strLower u) "call" then "Call"
  else if strContains (strLower u) "appointment" then "Appointment"
  else if strContains (strLower u) "interview" then "Interview"
  else if strContains (strLower u) "consultation" then "Consultation"
  else "Meeting"

/-- The fresh draft `AppointmentRequest(duration_minutes=60)` created by
`collect_appointment_details_with_ai` when the session has none. -/
def freshDraft : AppointmentRequest :=
  { title := none, description := none, start_date := none, end_date := none,
    duration_minutes := some 60 }

/-- Lines 210-225 of `nodes.py`: each truthy, parseable extracted field
overwrites the corresponding draft field. -/
def applyExtraction (e : ExtractionResult) (r : AppointmentRequest) : AppointmentRequest :=
  let r := match e.start_time with
    | some s => { r with start_date := some s }
    | none => r
  let r := match e.end_time with
    | some t => { r with end_date := some t }
    | none => r
  let r := if truthyNat e.duration then { r with duration_minutes := e.duration } else r
  let r := if truthyStr e.title then { r with title := e.title } else r
  if truthyStr e.description then { r with description := e.description } else r

/-- Lines 230-244 of `nodes.py`: when no start instant is known, try the
time-range parse (which also sets the end and the range-derived duration),
then the single-instant parse. -/
def startFallback (P : Parsers) (u : String) (r : AppointmentRequest) : AppointmentRequest :=
  if r.start_date.isNone then
    match P.parse_time_range u with
    | some (s, t) =>
      { r with start_date := some s, end_date := some t, duration_minutes := some (t - s) }
    | none =>
      match P.parse_date_time u with
      | some s => { r with start_date := some s }
      | none => r
  else r

/-- Lines 246-252 of `nodes.py`: when the duration is unset (or zero), take a
parsed duration phrase if truthy, else default to 60 minutes — but only when
no end instant is present. -/
def durationFallback (P : Parsers) (u : String) (r : AppointmentRequest) : AppointmentRequest :=
  if truthyNat r.duration_minutes then r
  else if truthyNat (P.parse_duration u) then
    { r with duration_minutes := P.parse_duration u }
  else if r.end_date.isNone then { r with duration_minutes := some 60 }
  else r

/-- Lines 254-268 of `nodes.py`: default the title from the keyword table. -/
def titleFallback (u : String) (r : AppointmentRequest) : AppointmentRequest :=
  if truthyStr r.title then r else { r with title := some (meeting_title_for u) }

/-- Lines 277-282 of `nodes.py`: once start and duration are both known
(`is not None`), derive the end instant when absent. -/
def deriveEnd (r : AppointmentRequest) : AppointmentRequest :=
  if r.start_date.isSome && r.duration_minutes.isSome then
    match r.end_date with
    | some _ => r
    | none => { r with end_date := some (r.start_date.getD 0 + r.duration_minutes.getD 0) }
  else r

/-- The draft-merge portion of
`ConversationNodes.collect_appointment_details_with_ai` (lines 195-306): the
draft the session stores at the end of the turn, as a function of the previous
draft, the utterance and the extraction result. -/
def collectMerge (P : Parsers) (u : String) (e : ExtractionResult)
    (d0 : Option AppointmentRequest) : AppointmentRequest :=
  deriveEnd (titleFallback u (durationFallback P u (startFallback P u
    (applyExtraction e (d0.getD freshDraft)))))

/-- The per-session conversation state consulted and updated by the dialogue
nodes (`app/models/schemas.py` `ConversationState`; the append-only message
log is carried separately as node replies). -/
structure SessionState where
  current_state : ConversationStateEnum
  appointment_request : Option AppointmentRequest
  available_slots : List TimeSlot
  deriving Repr, DecidableEq

/-- The end instant the booking nodes pass to the backend:
`end_date or (start_date + timedelta(minutes=duration_minutes))`.
`none` models the `TypeError` raised when both the end and the duration are
absent (caught by the node's `except`). -/
def resolvedEnd (r : AppointmentRequest) : Option Nat :=
  match r.end_date with
  | some t => some t
  | none => r.duration_minutes.map (fun d => r.start_date.getD 0 + d)

/-- Python `x or default` for an optional count (`duration_minutes or 60`). -/
def natOr (o : Option Nat) (default : Nat) : Nat :=
  if truthyNat o then o.getD default else default

/-- Node `ConversationNodes.suggest_alternative_slots` wired to the in-memory
backend: search `[draft.start or now, +7 days)` at the draft's duration, offer
up to 5 slots and stay in SUGGESTING_SLOTS, or fall back to
COLLECTING_DETAILS when none exist.  (`MockCalendar.get_availability` is
total, so the handler's `except` branch is unreachable with this backend.) -/
def suggest_alternative_slots (events : List CalendarEvent) (now : Nat)
    (s : SessionState) : SessionState :=
  match s.appointment_request with
  | none => s
  | some r =>
    let start_search := r.start_date.getD now
    let end_search := start_search + 7 * 1440
    let avail := MockCalendar.get_availability events start_search end_search
      (natOr r.duration_minutes 60)
    if avail.available_slots.isEmpty then
      { s with current_state := .COLLECTING_DETAILS }
    else
      { s with available_slots := avail.available_slots.take 5,
               current_state := .SUGGESTING_SLOTS }

/-- Node `ConversationNodes.check_availability` wired to the in-memory backend.
`MockCalendar` defines no `is_time_available` method, so the attribute lookup
on line 361 of `nodes.py` raises `AttributeError` inside the `try`; the
handler's `except` branch then moves to SUGGESTING_SLOTS and runs slot
suggestion in the same turn.  `none` models the guard's delegation to
`collect_appointment_details_with_ai` when the draft or its start is absent. -/
def check_availability_mock (events : List CalendarEvent) (now : Nat)
    (s : SessionState) : Option SessionState :=
  match s.appointment_request with
  | none => none
  | some r =>
    if r.start_date.isNone then none
    else some (suggest_alternative_slots events now
      { s with current_state := .SUGGESTING_SLOTS })

/-- Node `ConversationNodes.check_availability` against a backend that does expose
the single-slot check (`GoogleCalendar.is_time_available`): `free` / `busy`
are the check's verdicts and `raises` covers any exception from the backend
call.  The turn's continuation into slot suggestion is returned as a marker so
the one-turn composition stays explicit. -/
inductive AvailCheckOutcome where
  | free
  | busy
  | raises
  deriving Repr, DecidableEq

/-- Result of a `check_availability` turn with an abstract backend:
either the confirmation prompt (CONFIRMING_BOOKING) or the immediate
continuation into `suggest_alternative_slots`. -/
def check_availability_node (outcome : AvailCheckOutcome) (s : SessionState) :
    Option SessionState :=
  match s.appointment_request with
  | none => none
  | some r =>
    if r.start_date.isNone then none
    else match resolvedEnd r, outcome with
      | none, _ =>
        -- computing the fallback end raises `TypeError`, caught by the `except`
        some { s with current_state := .SUGGESTING_SLOTS }
      | some _, .free => some { s with current_state := .CONFIRMING_BOOKING }
      | some _, .busy => some { s with current_state := .SUGGESTING_SLOTS }
      | some _, .raises => some { s with current_state := .SUGGESTING_SLOTS }

/-- The matching loop of `ConversationNodes.handle_slot_selection`
(lines 459-462): for each 1-based index `i+1` up to the number of offered
slots, the first index whose literal `option -N-` or bare `-N-` occurs in the
lowered message selects that slot. -/
def selectSlot : List TimeSlot → Nat → String → Option TimeSlot
  | [], _, _ => none
  | slot :: rest, i, lower =>
    if strContains lower ("option " ++ toString (i + 1)) ||
        strContains lower (toString (i + 1)) then some slot
    else selectSlot rest (i + 1) lower

/-- Outcome of `ConversationNodes.handle_slot_selection`. -/
inductive SelectionOutcome where
  /-- No offered slots, or no index matched: the handler re-runs the
  detail-collection merge on the message. -/
  | delegated
  /-- A slot matched: its start/end are adopted into the draft and the session
  moves to CONFIRMING_BOOKING. -/
  | selected (s : SessionState)
  /-- A slot matched but the session has no draft: line 467 raises
  `AttributeError`, which escapes the node (caught only at the session
  boundary). -/
  | raised
  deriving Repr, DecidableEq

/-- Node `ConversationNodes.handle_slot_selection` (lines 444-487). -/
def handle_slot_selection (s : SessionState) (message : String) : SelectionOutcome :=
  if s.available_slots.isEmpty then .delegated
  else
    match selectSlot s.available_slots 0 (strLower message) with
    | none => .delegated
    | some slot =>
      match s.appointment_request with
      | none => .raised
      | some r =>
        .selected
          { s with
            appointment_request := some
              { r with start_date := some slot.start_time,
                       end_date := some slot.end_time },
            current_state := .CONFIRMING_BOOKING }

/-- Renders an optional id the way the reply f-string prints it
(`None` for an absent id). -/
def optionRepr (o : Option String) : String :=
  match o with
  | some s => s
  | none => "None"

/-- Node `ConversationNodes.book_appointment` (lines 513-559) as a function of the
backend commit's outcome: `none` models the backend call raising, `some br`
the returned `BookingResponse`.  The result pairs the post-turn session state
with the reply appended to the log; the node's own `none` again models the
guard's delegation to detail collection. -/
def book_appointment_node (outcome : Option BookingResponse) (s : SessionState) :
    Option (SessionState × String) :=
  match s.appointment_request with
  | none => none
  | some r =>
    if r.start_date.isNone then none
    else match resolvedEnd r with
      | none =>
        -- the fallback end raises `TypeError`, caught by the `except`
        some ({ s with current_state := .COLLECTING_DETAILS },
          "I encountered an error while booking your appointment. " ++
          "Would you like to try again or choose a different time?")
      | some _ =>
        match outcome with
        | none =>
          some ({ s with current_state := .COLLECTING_DETAILS },
            "I encountered an error while booking your appointment. " ++
            "Would you like to try again or choose a different time?")
        | some br =>
          if br.success then
            some ({ s with current_state := .BOOKING_COMPLETE },
              "Appointment Booked Successfully! Title: " ++
                optionRepr r.title ++ " Event ID: " ++ optionRepr br.event_id ++
                " Your appointment has been added to your Google Calendar.")
          else
            some ({ s with current_state := .COLLECTING_DETAILS },
              "I am sorry, there was an error booking your appointment: " ++
                br.message ++ ". Would you like to try a different time?")

/-- The `book_appointment` node wired to the in-memory backend: the dialogue
booking path end to end.  Returns the post-turn state together with the
updated event store.  Merged drafts always carry a title; an absent one is
passed through as the empty string. -/
def book_turn_mock (store : MockCalendar.EventStore) (now : Nat)
    (s : SessionState) : Option (SessionState × MockCalendar.EventStore) :=
  match s.appointment_request with
  | none => none
  | some r =>
    if r.start_date.isNone then none
    else match resolvedEnd r with
      | none => some ({ s with current_state := .COLLECTING_DETAILS }, store)
      | some en =>
        let res := MockCalendar.book_appointment store now (r.title.getD "")
          (r.start_date.getD 0) en r.description []
        if res.1.success then
          some ({ s with current_state := .BOOKING_COMPLETE }, res.2)
        else
          some ({ s with current_state := .COLLECTING_DETAILS }, res.2)

/-- Validator `InputValidator.validate_appointment_request` (`app/utils/validators.py`,
lines 16-42), the validation layer's check for the constraints of §7(e);
`now` is the clock read by the past/lookahead comparisons. -/
def validate_appointment_request (now : Nat) (r : AppointmentRequest) :
    Bool × Option String :=
  if r.start_date.isNone && r.end_date.isNone then
    (false, some "Please specify a date and time for the appointment")
  else if truthyNat r.duration_minutes && decide (r.duration_minutes.getD 0 < 15) then
    (false, some "Duration must be at least 15 minutes")
  else if truthyNat r.duration_minutes && decide (r.duration_minutes.getD 0 > 240) then
    (false, some "Duration cannot exceed 240 minutes")
  else if r.start_date.isSome && r.end_date.isSome then
    if r.start_date.getD 0 ≥ r.end_date.getD 0 then
      (false, some "Start time must be before end time")
    else if r.start_date.getD 0 > now + 90 * 1440 then
      (false, some "Cannot book appointments more than 90 days in advance")
    else if r.start_date.getD 0 < now then
      (false, some "Cannot book appointments in the past")
    else (true, none)
  else (true, none)

/-! Concrete instances used by counterexamples and witnesses.  Day 0 of the
time model is a Monday, so minute 600 is Monday 10:00 and minute 540 is
Monday 09:00. -/

/-- A fully-resolved one-hour draft for Monday 10:00-11:00. -/
def mondayMeetingDraft : AppointmentRequest :=
  { title := some "Meeting", description := none, start_date := some 600,
    end_date := some 660, duration_minutes := some 60 }

/-- A session entering CHECKING_AVAILABILITY with the Monday 10:00 draft. -/
def checkingSession : SessionState :=
  { current_state := .CHECKING_AVAILABILITY,
    appointment_request := some mondayMeetingDraft, available_slots := [] }

/-- The state produced by the CHECKING_AVAILABILITY turn of `checkingSession`
against an empty in-memory store: the exception path runs slot suggestion,
which offers the first five Monday slots. -/
def suggestedState : SessionState :=
  { current_state := .SUGGESTING_SLOTS,
    appointment_request := some mondayMeetingDraft,
    available_slots :=
      [⟨540, 600, 60⟩, ⟨570, 630, 60⟩, ⟨600, 660, 60⟩, ⟨630, 690, 60⟩, ⟨660, 720, 60⟩] }

/-- A seeded busy interval, Monday 10:00-11:00 (cf. `_generate_mock_events`). -/
def seededEvent : CalendarEvent :=
  { id := "mock_event_0", title := "Team Meeting", description := some "Weekly team sync",
    start_time := 600, end_time := 660, attendees := [] }

/-- An event store holding exactly the seeded Monday 10:00-11:00 event. -/
def seededStore : MockCalendar.EventStore := [("mock_event_0", seededEvent)]

/-- A draft whose duration, 500 minutes, violates the 240-minute bound:
Monday 09:00 with no explicit end. -/
def longDraft : AppointmentRequest :=
  { title := some "Meeting", description := none, start_date := some 540,
    end_date := none, duration_minutes := some 500 }

/-- A session at CONFIRMING_BOOKING holding the 500-minute draft. -/
def confirmingSession : SessionState :=
  { current_state := .CONFIRMING_BOOKING, appointment_request := some longDraft,
    available_slots := [] }

/-- A fallback bundle on which every parse fails (e.g. an utterance carrying
no recognizable time, range or duration phrase). -/
def noParse : Parsers := ⟨fun _ => none, fun _ => none, fun _ => none⟩

/-- The extraction result with every field absent (also the shape of the
skipped extraction when no OpenAI client is configured). -/
def emptyExtraction : ExtractionResult := ⟨none, none, none, none, none⟩

/-- A stored draft with every field unset, in particular no start instant and
no duration. -/
def bareDraft : AppointmentRequest :=
  { title := none, description := none, start_date := none, end_date := none,
    duration_minutes := none }

/-- A stored draft with an explicit end instant but no duration. -/
def endedDraft : AppointmentRequest := { bareDraft with end_date := some 700 }

/-- A fallback bundle whose time-range parse recognizes the utterance as the
range 15:00-17:00 of day 0 (as `DateParser.parse_time_range` does for
`"3-5 pm"` relative to its construction day). -/
def rangeParse : Parsers := ⟨fun _ => some (900, 1020), fun _ => none, fun _ => none⟩

/-- An extraction result carrying an end instant (day 0, 20:00) but no start
instant, as the extractor may return for a message naming only an end time. -/
def endOnlyExtraction : ExtractionResult := ⟨none, some 1200, none, none, none⟩

/-- A single offered slot, Monday 10:00-11:00. -/
def singleSlot : TimeSlot := ⟨600, 660, 60⟩

/-- A SUGGESTING_SLOTS session in which exactly one slot was offered. -/
def suggestingSession : SessionState :=
  { current_state := .SUGGESTING_SLOTS,
    appointment_request := some mondayMeetingDraft, available_slots := [singleSlot] }

/-! Helper lemmas about the availability engine. -/

theorem mem_generate_day_slots_go :
    ∀ (fuel cur stop D : Nat) (slot : TimeSlot),
      slot ∈ MockCalendar.generate_day_slots_go fuel cur stop D →
      slot.duration_minutes = D ∧ slot.end_time = slot.start_time + D ∧
        cur ≤ slot.start_time ∧ slot.start_time + D ≤ stop ∧
        (slot.start_time - cur) % 30 = 0 := by
  intro fuel
  induction fuel with
  | zero =>
    intro cur stop D slot h
    simp [MockCalendar.generate_day_slots_go] at h
  | succ n ih =>
    intro cur stop D slot h
    simp only [MockCalendar.generate_day_slots_go] at h
    split at h
    case isTrue hle =>
      rcases List.mem_cons.mp h with h | h
      · subst h
        exact ⟨rfl, rfl, Nat.le_refl _, hle, by simp⟩
      · obtain ⟨h1, h2, h3, h4, h5⟩ := ih (cur + 30) stop D slot h
        refine ⟨h1, h2, by omega, h4, ?_⟩
        have hd : slot.start_time - cur = (slot.start_time - (cur + 30)) + 30 := by omega
        rw [hd, Nat.add_mod_right]
        exact h5
    case isFalse hle => simp at h

theorem mem_filter_conflicting_mock {events : List CalendarEvent}
    {slots : List TimeSlot} {slot : TimeSlot} :
    slot ∈ MockCalendar.filter_conflicting_slots events slots ↔
      slot ∈ slots ∧ ∀ e ∈ events,
        ¬(slot.start_time < e.end_time ∧ slot.end_time > e.start_time) := by
  constructor
  · intro h
    obtain ⟨hs, hall⟩ := List.mem_filter.mp h
    refine ⟨hs, fun e he hc => ?_⟩
    have h2 := List.all_eq_true.mp hall e he
    simp at h2
    omega
  · rintro ⟨hs, hall⟩
    refine List.mem_filter.mpr ⟨hs, List.all_eq_true.mpr fun e he => ?_⟩
    have h1 := hall e he
    by_cases h2 : slot.start_time < e.end_time
    · have h3 : ¬ slot.end_time > e.start_time := fun h3 => h1 ⟨h2, h3⟩
      simp [h2, h3]
    · simp [h2]

theorem mem_filter_conflicting_google {slots : List TimeSlot}
    {events : List GoogleEvent} {slot : TimeSlot} :
    slot ∈ GoogleCalendar.filter_conflicting_slots slots events ↔
      slot ∈ slots ∧ ∀ e ∈ events, e.all_day = false →
        ¬(slot.start_time < e.end_time ∧ slot.end_time > e.start_time) := by
  constructor
  · intro h
    obtain ⟨hs, hall⟩ := List.mem_filter.mp h
    refine ⟨hs, fun e he had hc => ?_⟩
    have h2 := List.all_eq_true.mp hall e he
    simp [had] at h2
    omega
  · rintro ⟨hs, hall⟩
    refine List.mem_filter.mpr ⟨hs, List.all_eq_true.mpr fun e he => ?_⟩
    cases had : e.all_day with
    | true => simp
    | false =>
      have h1 := hall e he had
      by_cases h2 : slot.start_time < e.end_time
      · have h3 : ¬ slot.end_time > e.start_time := fun h3 => h1 ⟨h2, h3⟩
        simp [h2, h3]
      · simp [h2]

theorem mem_get_availability {events : List CalendarEvent} {ds de : Nat}
    {D : Nat} {slot : TimeSlot} :
    slot ∈ (MockCalendar.get_availability events ds de D).available_slots →
    ∃ d, weekday d < 5 ∧
      slot ∈ MockCalendar.filter_conflicting_slots events
        (MockCalendar.generate_day_slots d D) := by
  intro h
  simp only [MockCalendar.get_availability, List.mem_flatMap] at h
  obtain ⟨d, _, hd⟩ := h
  by_cases hw : weekday d ≥ 5
  · simp [hw] at hd
  · rw [if_neg hw] at hd
    exact ⟨d, by omega, hd⟩

/-- C4: for every candidate slot and every precise (non-all-day) event, the
conflict predicate is `slot.start < event.end AND slot.end > event.start` with
strict inequalities (both the Google and the in-memory filter); a slot that
exactly abuts every event (touching allowed, `≤`) is kept as available, and a
slot strictly inside or partially overlapping a precise event is never
returned as available. -/
theorem conflict_predicate_strict (slots : List TimeSlot) (events : List GoogleEvent)
    (mockEvents : List CalendarEvent) (slot : TimeSlot) :
    (slot ∈ GoogleCalendar.filter_conflicting_slots slots events ↔
      slot ∈ slots ∧ ∀ e ∈ events, e.all_day = false →
        ¬(slot.start_time < e.end_time ∧ slot.end_time > e.start_time)) ∧
    (slot ∈ MockCalendar.filter_conflicting_slots mockEvents slots ↔
      slot ∈ slots ∧ ∀ e ∈ mockEvents,
        ¬(slot.start_time < e.end_time ∧ slot.end_time > e.start_time)) ∧
    (slot ∈ slots →
      (∀ e ∈ events, e.all_day = false →
        slot.end_time ≤ e.start_time ∨ e.end_time ≤ slot.start_time) →
      slot ∈ GoogleCalendar.filter_conflicting_slots slots events) ∧
    ((∃ e ∈ events, e.all_day = false ∧
        slot.start_time < e.end_time ∧ slot.end_time > e.start_time) →
      slot ∉ GoogleCalendar.filter_conflicting_slots slots events) := by
  refine ⟨mem_filter_conflicting_google, mem_filter_conflicting_mock, ?_, ?_⟩
  · intro hs habut
    refine mem_filter_conflicting_google.mpr ⟨hs, fun e he had hc => ?_⟩
    rcases habut e he had with h | h <;> omega
  · rintro ⟨e, he, had, hov⟩ hmem
    exact (mem_filter_conflicting_google.mp hmem).2 e he had hov

theorem conflict_predicate_strict_witness :
    singleSlot ∈ GoogleCalendar.filter_conflicting_slots [singleSlot]
      [{ all_day := false, start_time := 660, end_time := 720 }] :=
  (conflict_predicate_strict [singleSlot]
      [{ all_day := false, start_time := 660, end_time := 720 }] [] singleSlot).2.2.1
    (by decide) (by decide)

/-- C5: every slot returned by the in-memory availability search has
`duration_minutes = end - start`, starts on a weekday inside business hours,
and is generated from business open in 30-minute increments, never running
past business close (`0 < D` excludes the degenerate zero-duration search the
dialogue layer never issues, since `duration_minutes or 60` is used). -/
theorem get_availability_slot_shape (events : List CalendarEvent) (ds de D : Nat)
    (slot : TimeSlot) (hD : 0 < D)
    (h : slot ∈ (MockCalendar.get_availability events ds de D).available_slots) :
    slot.duration_minutes = D ∧ slot.end_time = slot.start_time + D ∧
      weekday (dateOf slot.start_time) < 5 ∧
      businessStart ≤ slot.start_time % 1440 ∧
      slot.start_time % 1440 + D ≤ businessEnd ∧
      (slot.start_time % 1440 - businessStart) % 30 = 0 := by
  obtain ⟨d, hw, hmem⟩ := mem_get_availability h
  have hslots := (mem_filter_conflicting_mock.mp hmem).1
  obtain ⟨h1, h2, h3, h4, h5⟩ :=
    mem_generate_day_slots_go 20 (d * 1440 + businessStart) (d * 1440 + businessEnd) D
      slot hslots
  have h3' : d * 1440 + 540 ≤ slot.start_time := h3
  have h4' : slot.start_time + D ≤ d * 1440 + 1080 := h4
  have h5' : (slot.start_time - (d * 1440 + 540)) % 30 = 0 := h5
  simp only [businessStart, businessEnd]
  have hday : dateOf slot.start_time = d := by
    unfold dateOf
    omega
  refine ⟨h1, h2, ?_, by omega, by omega, by omega⟩
  rw [hday]
  exact hw

theorem get_availability_slot_shape_witness :
    ((⟨540, 600, 60⟩ : TimeSlot) ∈
      (MockCalendar.get_availability [] 0 0 60).available_slots) ∧
    weekday (dateOf 540) < 5 :=
  ⟨by decide,
   (get_availability_slot_shape [] 0 0 60 ⟨540, 600, 60⟩ (by decide) (by decide)).2.2.1⟩

/-- C2: refuted on the code at a concrete input — `book_appointment` of the
in-memory backend books Monday 10:00-11:00 with success although that interval
temporally overlaps the stored Monday 10:00-11:00 event, because the commit
only checks that *some* candidate slot in the surrounding day window is free,
never the requested interval itself. -/
theorem commit_ignores_requested_interval :
    (600 < seededEvent.end_time ∧ 660 > seededEvent.start_time) ∧
    (MockCalendar.book_appointment seededStore 0 "Client Call" 600 660 none []).1.success
      = true ∧
    (MockCalendar.book_appointment seededStore 0 "Client Call" 600 660 none []).2.length
      = 2 := by
  decide

/-- C3: refuted on the code at a concrete input — the validator rejects the
500-minute draft (`Duration cannot exceed 240 minutes`), yet the dialogue
booking path commits it to the in-memory backend and reaches BOOKING_COMPLETE,
because no node of the booking path ever invokes
`InputValidator.validate_appointment_request`. -/
theorem booking_path_skips_validation :
    validate_appointment_request 0 { longDraft with end_date := some 1040 } =
      (false, some "Duration cannot exceed 240 minutes") ∧
    (book_turn_mock [] 0 confirmingSession).map
        (fun p => (p.1.current_state, p.2.length)) =
      some (.BOOKING_COMPLETE, 1) := by
  constructor
  · decide
  · decide

/-- C6 (counterexample): a draft with no start instant does receive the
60-minute default — merging an unparseable utterance with an empty extraction
into a draft whose fields are all unset leaves the start unset yet sets the
duration to 60. -/
theorem duration_default_without_start :
    (collectMerge noParse "hello" emptyExtraction (some bareDraft)).start_date = none ∧
    (collectMerge noParse "hello" emptyExtraction (some bareDraft)).duration_minutes
      = some 60 := by
  decide

/-- C8 (counterexample): the merge is not idempotent — when the extraction
carries an end instant but no start and the utterance parses as a time range,
the first merge overwrites the extracted end with the range's end, and the
second merge restores the extracted end, yielding a different draft. -/
theorem merge_not_idempotent :
    collectMerge rangeParse "3-5 pm" endOnlyExtraction
        (some (collectMerge rangeParse "3-5 pm" endOnlyExtraction none)) ≠
      collectMerge rangeParse "3-5 pm" endOnlyExtraction none := by
  decide

/-! Helper lemmas about slot selection and the commit. -/

theorem selectSlot_mem :
    ∀ (slots : List TimeSlot) (i : Nat) (lower : String) (slot : TimeSlot),
      selectSlot slots i lower = some slot → slot ∈ slots := by
  intro slots
  induction slots with
  | nil => intro i lower slot h; simp [selectSlot] at h
  | cons a t ih =>
    intro i lower slot h
    rw [selectSlot] at h
    split at h
    · injection h with h
      exact h ▸ List.mem_cons_self a t
    · exact List.mem_cons_of_mem a (ih (i + 1) lower slot h)

theorem dictInsert_fresh {store : MockCalendar.EventStore} {k : String}
    {v : CalendarEvent} (h : store.any (fun p => p.1 == k) = false) :
    MockCalendar.dictInsert store k v = store ++ [(k, v)] := by
  unfold MockCalendar.dictInsert
  simp [h]

/-- C9: slot-selection handling never selects a slot from outside the
offered-slot list (any selected slot is a member, adopted into the draft with
a move to CONFIRMING_BOOKING), and the reply `option 2` when only one slot was
offered matches nothing and falls through to re-interpreting the message as
new draft input. -/
theorem slot_selection_safe :
    (∀ (slots : List TimeSlot) (i : Nat) (lower : String) (slot : TimeSlot),
        selectSlot slots i lower = some slot → slot ∈ slots) ∧
    (∀ (s : SessionState) (message : String) (s' : SessionState),
        handle_slot_selection s message = .selected s' →
        ∃ slot, slot ∈ s.available_slots ∧ ∃ r, s.appointment_request = some r ∧
          s' = { s with
                 appointment_request := some
                   { r with start_date := some slot.start_time,
                            end_date := some slot.end_time },
                 current_state := .CONFIRMING_BOOKING }) ∧
    handle_slot_selection suggestingSession "option 2" = .delegated := by
  refine ⟨selectSlot_mem, ?_, by decide⟩
  intro s message s' h
  unfold handle_slot_selection at h
  split at h
  · simp at h
  · cases hsel : selectSlot s.available_slots 0 (strLower message) with
    | none => rw [hsel] at h; simp at h
    | some slot =>
      rw [hsel] at h
      cases hr : s.appointment_request with
      | none => rw [hr] at h; simp at h
      | some r =>
        rw [hr] at h
        simp only [SelectionOutcome.selected.injEq] at h
        exact ⟨slot, selectSlot_mem _ _ _ _ hsel, r, rfl, h.symm⟩

theorem slot_selection_safe_witness :
    selectSlot [singleSlot] 0 "option 1" = some singleSlot ∧
      singleSlot ∈ [singleSlot] :=
  ⟨by decide, slot_selection_safe.1 [singleSlot] 0 "option 1" singleSlot (by decide)⟩

/-- C10: the in-memory commit is total (every branch returns a response) and
atomic on failure — `start >= end` and the no-free-slot case return
`success=False` with the store unchanged, any failing response leaves the
store unchanged, and (when the generated id is fresh, which only the wall
clock could violate) exactly one event is appended iff the response is
successful with a non-null event id. -/
theorem mock_commit_total_atomic (store : MockCalendar.EventStore) (now : Nat)
    (title : String) (st en : Nat) (description : Option String)
    (attendees : List String) :
    (st ≥ en →
      MockCalendar.book_appointment store now title st en description attendees =
        ({ success := false, message := "Start time must be before end time",
           event_id := none }, store)) ∧
    ((MockCalendar.book_appointment store now title st en description attendees).1.success
        = false →
      (MockCalendar.book_appointment store now title st en description attendees).2
        = store) ∧
    (st < en →
      (MockCalendar.get_availability (store.map Prod.snd) st en
          (en - st)).available_slots.isEmpty = true →
      (MockCalendar.book_appointment store now title st en description attendees).1 =
        { success := false, message := "The requested time slot is not available",
          event_id := none }) ∧
    ((MockCalendar.book_appointment store now title st en description attendees).1.success
        = true →
      (MockCalendar.book_appointment store now title st en description attendees).1.event_id
        = some (MockCalendar.genEventId store.length now)) ∧
    (store.any (fun p => p.1 == MockCalendar.genEventId store.length now) = false →
      ((MockCalendar.book_appointment store now title st en description
            attendees).1.success = true ↔
        (MockCalendar.book_appointment store now title st en description
            attendees).2.length = store.length + 1 ∧
        (MockCalendar.book_appointment store now title st en description
            attendees).1.event_id ≠ none)) := by
  unfold MockCalendar.book_appointment
  by_cases h1 : st ≥ en
  · rw [if_pos h1]
    refine ⟨fun _ => rfl, fun _ => rfl, fun h2 _ => absurd h1 (by omega), ?_, ?_⟩
    · intro hs; exact absurd hs (by simp)
    · intro _
      constructor
      · intro hs; exact absurd hs (by simp)
      · rintro ⟨hlen, _⟩; simp at hlen
  · rw [if_neg h1]
    by_cases h2 : (MockCalendar.get_availability (store.map Prod.snd) st en
        (en - st)).available_slots.isEmpty = true
    · rw [if_pos h2]
      refine ⟨fun h => absurd h h1, fun _ => rfl, fun _ _ => rfl, ?_, ?_⟩
      · intro hs; exact absurd hs (by simp)
      · intro _
        constructor
        · intro hs; exact absurd hs (by simp)
        · rintro ⟨hlen, _⟩; simp at hlen
    · rw [if_neg h2]
      refine ⟨fun h => absurd h h1, ?_, ?_, fun _ => rfl, ?_⟩
      · intro hs; exact absurd hs (by simp)
      · intro _ h4; exact absurd h4 h2
      · intro hfresh
        constructor
        · intro _
          refine ⟨?_, by simp⟩
          rw [dictInsert_fresh hfresh]
          simp
        · intro _; rfl

theorem mock_commit_total_atomic_witness :
    MockCalendar.book_appointment [] 0 "x" 660 600 none [] =
      ({ success := false, message := "Start time must be before end time",
         event_id := none }, []) :=
  (mock_commit_total_atomic [] 0 "x" 660 600 none []).1 (by decide)

/-- C7: for a confirmed booking attempt (draft present with a start and a
resolvable end), a raising backend or a failure response leaves the session in
COLLECTING_DETAILS (never BOOKING_COMPLETE), while a success response moves it
to BOOKING_COMPLETE and surfaces the backend-issued event identifier inside
the reply text. -/
theorem booking_confirmation_transitions (outcome : Option BookingResponse)
    (s : SessionState) (r : AppointmentRequest) (en : Nat)
    (hr : s.appointment_request = some r) (hst : r.start_date.isSome = true)
    (hen : resolvedEnd r = some en) :
    (outcome = none →
      book_appointment_node outcome s =
        some ({ s with current_state := .COLLECTING_DETAILS },
          "I encountered an error while booking your appointment. " ++
          "Would you like to try again or choose a different time?")) ∧
    (∀ br, outcome = some br → br.success = false →
      ∃ msg, book_appointment_node outcome s =
        some ({ s with current_state := .COLLECTING_DETAILS }, msg)) ∧
    (∀ br id, outcome = some br → br.success = true → br.event_id = some id →
      ∃ pre post, book_appointment_node outcome s =
        some ({ s with current_state := .BOOKING_COMPLETE }, pre ++ id ++ post)) := by
  obtain ⟨v, hv⟩ := Option.isSome_iff_exists.mp hst
  refine ⟨?_, ?_, ?_⟩
  · intro ho; subst ho
    simp [book_appointment_node, hr, hen, hv]
  · intro br ho hbs; subst ho
    refine ⟨"I am sorry, there was an error booking your appointment: " ++
      br.message ++ ". Would you like to try a different time?", ?_⟩
    simp [book_appointment_node, hr, hen, hv, hbs]
  · intro br id ho hbs hid; subst ho
    refine ⟨"Appointment Booked Successfully! Title: " ++ optionRepr r.title ++
      " Event ID: ", " Your appointment has been added to your Google Calendar.", ?_⟩
    simp [book_appointment_node, hr, hen, hv, hbs, hid, optionRepr]

theorem booking_confirmation_transitions_witness :
    ∃ pre post,
      book_appointment_node
          (some { success := true, message := "ok", event_id := some "event_1_0" })
          checkingSession =
        some ({ checkingSession with current_state := .BOOKING_COMPLETE },
          pre ++ "event_1_0" ++ post) :=
  (booking_confirmation_transitions _ checkingSession mondayMeetingDraft 660
      rfl rfl rfl).2.2 _ "event_1_0" rfl rfl rfl

/-- States a `suggest_alternative_slots` turn can end in. -/
theorem suggest_state_cases (events : List CalendarEvent) (now : Nat)
    (s : SessionState) :
    (suggest_alternative_slots events now s).current_state = .COLLECTING_DETAILS ∨
    (suggest_alternative_slots events now s).current_state = .SUGGESTING_SLOTS ∨
    (suggest_alternative_slots events now s).current_state = s.current_state := by
  unfold suggest_alternative_slots
  cases hr : s.appointment_request with
  | none => right; right; rfl
  | some r =>
    by_cases h2 : (MockCalendar.get_availability events (r.start_date.getD now)
        (r.start_date.getD now + 7 * 1440)
        (natOr r.duration_minutes 60)).available_slots.isEmpty = true
    · left; simp [h2]
    · right; left; simp [h2]

/-- C1: with the in-memory backend a CHECKING_AVAILABILITY turn never ends in
CONFIRMING_BOOKING — `MockCalendar` defines no `is_time_available`, so the
check raises `AttributeError`, the handler's error branch runs slot suggestion
in the same turn and the turn ends in SUGGESTING_SLOTS (or COLLECTING_DETAILS
when no alternative exists); in particular the conflict-free Monday
10:00-11:00 draft against an empty store ends in SUGGESTING_SLOTS. -/
theorem check_availability_mock_never_confirms :
    (∀ (events : List CalendarEvent) (now : Nat) (s s' : SessionState),
        check_availability_mock events now s = some s' →
        s'.current_state ≠ .CONFIRMING_BOOKING ∧
          (s'.current_state = .SUGGESTING_SLOTS ∨
            s'.current_state = .COLLECTING_DETAILS)) ∧
    check_availability_mock [] 0 checkingSession = some suggestedState ∧
    suggestedState.current_state = .SUGGESTING_SLOTS := by
  refine ⟨?_, by decide, rfl⟩
  intro events now s s' h
  unfold check_availability_mock at h
  cases hr : s.appointment_request with
  | none => rw [hr] at h; simp at h
  | some r =>
    rw [hr] at h
    simp only [] at h
    split at h
    · simp at h
    · injection h with h
      subst h
      rcases suggest_state_cases events now
          { current_state := .SUGGESTING_SLOTS, appointment_request := some r,
            available_slots := s.available_slots } with hc | hc | hc
      · exact ⟨by simp [hc], Or.inr hc⟩
      · exact ⟨by simp [hc], Or.inl hc⟩
      · simp at hc
        exact ⟨by simp [hc], Or.inl hc⟩

theorem check_availability_mock_never_confirms_witness :
    suggestedState.current_state ≠ ConversationStateEnum.CONFIRMING_BOOKING :=
  (check_availability_mock_never_confirms.1 [] 0 checkingSession suggestedState
    (by decide)).1

/-! Stage lemmas for the draft merge. -/

theorem AppointmentRequest.eq_of_fields {r1 r2 : AppointmentRequest}
    (h1 : r1.title = r2.title) (h2 : r1.description = r2.description)
    (h3 : r1.start_date = r2.start_date) (h4 : r1.end_date = r2.end_date)
    (h5 : r1.duration_minutes = r2.duration_minutes) : r1 = r2 := by
  cases r1; cases r2; simp_all

theorem applyExtraction_start (e : ExtractionResult) (r : AppointmentRequest) :
    (applyExtraction e r).start_date =
      (match e.start_time with | some s => some s | none => r.start_date) := by
  unfold applyExtraction
  cases e.start_time <;> cases e.end_time <;> (repeat' split) <;> rfl

theorem applyExtraction_end (e : ExtractionResult) (r : AppointmentRequest) :
    (applyExtraction e r).end_date =
      (match e.end_time with | some t => some t | none => r.end_date) := by
  unfold applyExtraction
  cases e.start_time <;> cases e.end_time <;> (repeat' split) <;> rfl

theorem applyExtraction_duration (e : ExtractionResult) (r : AppointmentRequest) :
    (applyExtraction e r).duration_minutes =
      (if truthyNat e.duration then e.duration else r.duration_minutes) := by
  unfold applyExtraction
  cases e.start_time <;> cases e.end_time <;> (repeat' split) <;> simp_all

theorem applyExtraction_title (e : ExtractionResult) (r : AppointmentRequest) :
    (applyExtraction e r).title =
      (if truthyStr e.title then e.title else r.title) := by
  unfold applyExtraction
  cases e.start_time <;> cases e.end_time <;> (repeat' split) <;> simp_all

theorem applyExtraction_description (e : ExtractionResult) (r : AppointmentRequest) :
    (applyExtraction e r).description =
      (if truthyStr e.description then e.description else r.description) := by
  unfold applyExtraction
  cases e.start_time <;> cases e.end_time <;> (repeat' split) <;> simp_all

theorem startFallback_of_isSome {P : Parsers} {u : String} {r : AppointmentRequest}
    (h : r.start_date.isSome = true) : startFallback P u r = r := by
  unfold startFallback
  cases hx : r.start_date with
  | none => rw [hx] at h; simp at h
  | some v => simp [hx]

theorem startFallback_keep {P : Parsers} {u : String} {r : AppointmentRequest}
    (h1 : P.parse_time_range u = none) (h2 : P.parse_date_time u = none) :
    startFallback P u r = r := by
  unfold startFallback
  split
  · rw [h1, h2]
  · rfl

theorem startFallback_title (P : Parsers) (u : String) (r : AppointmentRequest) :
    (startFallback P u r).title = r.title := by
  unfold startFallback
  split
  · cases hp : P.parse_time_range u with
    | some p => obtain ⟨x, y⟩ := p; rfl
    | none => cases P.parse_date_time u <;> rfl
  · rfl

theorem startFallback_description (P : Parsers) (u : String) (r : AppointmentRequest) :
    (startFallback P u r).description = r.description := by
  unfold startFallback
  split
  · cases hp : P.parse_time_range u with
    | some p => obtain ⟨x, y⟩ := p; rfl
    | none => cases P.parse_date_time u <;> rfl
  · rfl

theorem startFallback_end_of_range_none {P : Parsers} {u : String}
    (r : AppointmentRequest) (h : P.parse_time_range u = none) :
    (startFallback P u r).end_date = r.end_date := by
  unfold startFallback
  split
  · rw [h]; cases P.parse_date_time u <;> rfl
  · rfl

theorem startFallback_duration_of_range_none {P : Parsers} {u : String}
    (r : AppointmentRequest) (h : P.parse_time_range u = none) :
    (startFallback P u r).duration_minutes = r.duration_minutes := by
  unfold startFallback
  split
  · rw [h]; cases P.parse_date_time u <;> rfl
  · rfl

theorem startFallback_start_of_range_none {P : Parsers} {u : String}
    (r : AppointmentRequest) (h : P.parse_time_range u = none) :
    (startFallback P u r).start_date =
      (match r.start_date with | some s => some s | none => P.parse_date_time u) := by
  unfold startFallback
  cases hx : r.start_date with
  | none =>
    simp only [Option.isNone_none, if_true, h]
    cases hpd : P.parse_date_time u with
    | some s => rfl
    | none => exact hx
  | some v => simp [hx]

theorem durationFallback_start (P : Parsers) (u : String) (r : AppointmentRequest) :
    (durationFallback P u r).start_date = r.start_date := by
  unfold durationFallback
  repeat' split
  all_goals rfl

theorem durationFallback_end (P : Parsers) (u : String) (r : AppointmentRequest) :
    (durationFallback P u r).end_date = r.end_date := by
  unfold durationFallback
  repeat' split
  all_goals rfl

theorem durationFallback_title (P : Parsers) (u : String) (r : AppointmentRequest) :
    (durationFallback P u r).title = r.title := by
  unfold durationFallback
  repeat' split
  all_goals rfl

theorem durationFallback_description (P : Parsers) (u : String) (r : AppointmentRequest) :
    (durationFallback P u r).description = r.description := by
  unfold durationFallback
  repeat' split
  all_goals rfl

theorem durationFallback_of_truthy {P : Parsers} {u : String} {r : AppointmentRequest}
    (h : truthyNat r.duration_minutes = true) : durationFallback P u r = r := by
  unfold durationFallback
  rw [if_pos h]

theorem durationFallback_dur_parse {P : Parsers} {u : String} {r : AppointmentRequest}
    (h1 : truthyNat r.duration_minutes = false)
    (h2 : truthyNat (P.parse_duration u) = true) :
    (durationFallback P u r).duration_minutes = P.parse_duration u := by
  unfold durationFallback
  simp [h1, h2]

theorem durationFallback_dur_default {P : Parsers} {u : String} {r : AppointmentRequest}
    (h1 : truthyNat r.duration_minutes = false)
    (h2 : truthyNat (P.parse_duration u) = false) (h3 : r.end_date = none) :
    (durationFallback P u r).duration_minutes = some 60 := by
  unfold durationFallback
  simp [h1, h2, h3]

theorem durationFallback_keep {P : Parsers} {u : String} {r : AppointmentRequest}
    (h1 : truthyNat r.duration_minutes = false)
    (h2 : truthyNat (P.parse_duration u) = false) (h3 : r.end_date.isSome = true) :
    durationFallback P u r = r := by
  unfold durationFallback
  cases hx : r.end_date with
  | none => rw [hx] at h3; simp at h3
  | some w => simp [h1, h2, hx]

theorem titleFallback_start (u : String) (r : AppointmentRequest) :
    (titleFallback u r).start_date = r.start_date := by
  unfold titleFallback; split <;> rfl

theorem titleFallback_end (u : String) (r : AppointmentRequest) :
    (titleFallback u r).end_date = r.end_date := by
  unfold titleFallback; split <;> rfl

theorem titleFallback_duration (u : String) (r : AppointmentRequest) :
    (titleFallback u r).duration_minutes = r.duration_minutes := by
  unfold titleFallback; split <;> rfl

theorem titleFallback_description (u : String) (r : AppointmentRequest) :
    (titleFallback u r).description = r.description := by
  unfold titleFallback; split <;> rfl

theorem meeting_title_for_ne (u : String) : (meeting_title_for u != "") = true := by
  unfold meeting_title_for
  repeat' split
  all_goals decide

theorem titleFallback_title_truthy (u : String) (r : AppointmentRequest) :
    truthyStr (titleFallback u r).title = true := by
  unfold titleFallback
  split
  · assumption
  · simp [truthyStr, meeting_title_for_ne]

theorem titleFallback_of_truthy {u : String} {r : AppointmentRequest}
    (h : truthyStr r.title = true) : titleFallback u r = r := by
  unfold titleFallback
  rw [if_pos h]

theorem deriveEnd_start (r : AppointmentRequest) :
    (deriveEnd r).start_date = r.start_date := by
  unfold deriveEnd
  split
  · cases r.end_date <;> rfl
  · rfl

theorem deriveEnd_duration (r : AppointmentRequest) :
    (deriveEnd r).duration_minutes = r.duration_minutes := by
  unfold deriveEnd
  split
  · cases r.end_date <;> rfl
  · rfl

theorem deriveEnd_title (r : AppointmentRequest) : (deriveEnd r).title = r.title := by
  unfold deriveEnd
  split
  · cases r.end_date <;> rfl
  · rfl

theorem deriveEnd_description (r : AppointmentRequest) :
    (deriveEnd r).description = r.description := by
  unfold deriveEnd
  split
  · cases r.end_date <;> rfl
  · rfl

theorem deriveEnd_end_of_some {r : AppointmentRequest} {t : Nat}
    (h : r.end_date = some t) : (deriveEnd r).end_date = some t := by
  unfold deriveEnd
  split
  · rw [h]; exact h
  · exact h

theorem deriveEnd_end_isSome {r : AppointmentRequest}
    (h1 : r.start_date.isSome = true) (h2 : r.duration_minutes.isSome = true) :
    (deriveEnd r).end_date.isSome = true := by
  unfold deriveEnd
  rw [if_pos (by simp [h1, h2])]
  cases hx : r.end_date <;> simp [hx]

theorem deriveEnd_of_end_isSome {r : AppointmentRequest}
    (h : r.end_date.isSome = true) : deriveEnd r = r := by
  unfold deriveEnd
  split
  · cases hx : r.end_date with
    | none => rw [hx] at h; simp at h
    | some t => rfl
  · rfl

theorem deriveEnd_of_cond_false {r : AppointmentRequest}
    (h : (r.start_date.isSome && r.duration_minutes.isSome) = false) :
    deriveEnd r = r := by
  unfold deriveEnd
  rw [if_neg (by rw [h]; simp)]

theorem deriveEnd_idem (r : AppointmentRequest) : deriveEnd (deriveEnd r) = deriveEnd r := by
  by_cases hc : (r.start_date.isSome && r.duration_minutes.isSome) = true
  · have h1 : (deriveEnd r).end_date.isSome = true :=
      deriveEnd_end_isSome (by simp_all) (by simp_all)
    exact deriveEnd_of_end_isSome h1
  · have hc' : ((deriveEnd r).start_date.isSome &&
        (deriveEnd r).duration_minutes.isSome) = false := by
      rw [deriveEnd_start, deriveEnd_duration]
      simpa using hc
    rw [deriveEnd_of_cond_false hc']

theorem tail_duration_stable (P : Parsers) (u : String) (b : AppointmentRequest) :
    durationFallback P u (deriveEnd (titleFallback u (durationFallback P u b))) =
      deriveEnd (titleFallback u (durationFallback P u b)) := by
  set m := deriveEnd (titleFallback u (durationFallback P u b)) with hm
  by_cases h1 : truthyNat m.duration_minutes = true
  · exact durationFallback_of_truthy h1
  · have hmd : m.duration_minutes = (durationFallback P u b).duration_minutes := by
      rw [hm, deriveEnd_duration, titleFallback_duration]
    by_cases hb : truthyNat b.duration_minutes = true
    · rw [durationFallback_of_truthy hb] at hmd
      rw [hmd] at h1
      exact absurd hb h1
    · by_cases hp : truthyNat (P.parse_duration u) = true
      · have hx : m.duration_minutes = P.parse_duration u := by
          rw [hmd, durationFallback_dur_parse (by simpa using hb) hp]
        rw [hx] at h1
        exact absurd hp h1
      · by_cases hbe : b.end_date = none
        · have hx : m.duration_minutes = some 60 := by
            rw [hmd,
              durationFallback_dur_default (by simpa using hb) (by simpa using hp) hbe]
          rw [hx] at h1
          exact absurd (by decide : truthyNat (some 60) = true) h1
        · have hbe' : b.end_date.isSome = true := by
            cases hx : b.end_date with
            | none => exact absurd hx hbe
            | some w => rfl
          have hc : durationFallback P u b = b :=
            durationFallback_keep (by simpa using hb) (by simpa using hp) hbe'
          obtain ⟨w, hw⟩ := Option.isSome_iff_exists.mp hbe'
          have hme : m.end_date = some w := by
            rw [hm]
            apply deriveEnd_end_of_some
            rw [titleFallback_end, hc]
            exact hw
          exact durationFallback_keep (by simpa using h1) (by simpa using hp)
            (by rw [hme]; rfl)

theorem tail_title_stable (u : String) (c : AppointmentRequest) :
    titleFallback u (deriveEnd (titleFallback u c)) = deriveEnd (titleFallback u c) := by
  apply titleFallback_of_truthy
  rw [deriveEnd_title]
  exact titleFallback_title_truthy u c

/-- C6 (amended): the 60-minute default is governed only by the duration and
end fields, never by the start — after extraction and the start fallback, a
truthy duration is kept; otherwise a truthy parsed duration phrase wins;
otherwise the 60-minute default is applied exactly when no end instant is
present (whether or not a start instant is known), and a draft with an end
instant keeps its unset duration. -/
theorem duration_default_rule (P : Parsers) (u : String) (e : ExtractionResult)
    (d0 : Option AppointmentRequest) :
    (truthyNat (startFallback P u (applyExtraction e
          (d0.getD freshDraft))).duration_minutes = true →
      (collectMerge P u e d0).duration_minutes =
        (startFallback P u (applyExtraction e (d0.getD freshDraft))).duration_minutes) ∧
    (truthyNat (startFallback P u (applyExtraction e
          (d0.getD freshDraft))).duration_minutes = false →
      truthyNat (P.parse_duration u) = true →
      (collectMerge P u e d0).duration_minutes = P.parse_duration u) ∧
    (truthyNat (startFallback P u (applyExtraction e
          (d0.getD freshDraft))).duration_minutes = false →
      truthyNat (P.parse_duration u) = false →
      (startFallback P u (applyExtraction e (d0.getD freshDraft))).end_date = none →
      (collectMerge P u e d0).duration_minutes = some 60) ∧
    (truthyNat (startFallback P u (applyExtraction e
          (d0.getD freshDraft))).duration_minutes = false →
      truthyNat (P.parse_duration u) = false →
      (startFallback P u (applyExtraction e (d0.getD freshDraft))).end_date.isSome
        = true →
      (collectMerge P u e d0).duration_minutes =
        (startFallback P u (applyExtraction e (d0.getD freshDraft))).duration_minutes)
    := by
  have key : (collectMerge P u e d0).duration_minutes =
      (durationFallback P u (startFallback P u (applyExtraction e
        (d0.getD freshDraft)))).duration_minutes := by
    unfold collectMerge
    rw [deriveEnd_duration, titleFallback_duration]
  refine ⟨?_, ?_, ?_, ?_⟩
  · intro h1
    rw [key, durationFallback_of_truthy h1]
  · intro h1 h2
    rw [key, durationFallback_dur_parse h1 h2]
  · intro h1 h2 h3
    rw [key, durationFallback_dur_default h1 h2 h3]
  · intro h1 h2 h3
    rw [key, durationFallback_keep h1 h2 h3]

theorem duration_default_rule_witness :
    (collectMerge noParse "hello" emptyExtraction (some endedDraft)).duration_minutes =
      (startFallback noParse "hello" (applyExtraction emptyExtraction
        ((some endedDraft).getD freshDraft))).duration_minutes :=
  (duration_default_rule noParse "hello" emptyExtraction (some endedDraft)).2.2.2
    (by decide) (by decide) (by decide)

/-- C8 (amended): the draft merge is idempotent whenever the extraction
supplies a start instant, or the utterance does not parse as a time range —
outside the one overwrite interaction exhibited by the counterexample,
reapplying the same utterance and extraction result leaves the draft
unchanged. -/
theorem collectMerge_idempotent_of (P : Parsers) (u : String) (e : ExtractionResult)
    (d0 : Option AppointmentRequest)
    (h : e.start_time.isSome = true ∨ P.parse_time_range u = none) :
    collectMerge P u e (some (collectMerge P u e d0)) = collectMerge P u e d0 := by
  unfold collectMerge
  simp only [Option.getD_some]
  set a := applyExtraction e (d0.getD freshDraft) with ha
  set b := startFallback P u a with hb
  set m := deriveEnd (titleFallback u (durationFallback P u b)) with hm
  have hb_title : b.title = a.title := startFallback_title P u a
  have hb_desc : b.description = a.description := startFallback_description P u a
  have haS_of : e.start_time.isSome = true → a.start_date.isSome = true := by
    intro hs
    obtain ⟨s, hs'⟩ := Option.isSome_iff_exists.mp hs
    rw [ha, applyExtraction_start, hs']
    rfl
  have hb_end : b.end_date = a.end_date := by
    rcases h with hs | hr
    · rw [hb, startFallback_of_isSome (haS_of hs)]
    · rw [hb, startFallback_end_of_range_none a hr]
  have hb_dur : b.duration_minutes = a.duration_minutes := by
    rcases h with hs | hr
    · rw [hb, startFallback_of_isSome (haS_of hs)]
    · rw [hb, startFallback_duration_of_range_none a hr]
  have hm_start : m.start_date = b.start_date := by
    rw [hm, deriveEnd_start, titleFallback_start, durationFallback_start]
  have hm_desc : m.description = a.description := by
    rw [hm, deriveEnd_description, titleFallback_description,
      durationFallback_description, hb_desc]
  have hAm : applyExtraction e m = m := by
    apply AppointmentRequest.eq_of_fields
    · rw [applyExtraction_title]
      by_cases ht : truthyStr e.title = true
      · rw [if_pos ht]
        have ha_title : a.title = e.title := by
          rw [ha, applyExtraction_title, if_pos ht]
        have hct : truthyStr (durationFallback P u b).title = true := by
          rw [durationFallback_title, hb_title, ha_title]
          exact ht
        have hx : m.title = e.title := by
          rw [hm, deriveEnd_title, titleFallback_of_truthy hct,
            durationFallback_title, hb_title, ha_title]
        rw [hx]
      · rw [if_neg ht]
    · rw [applyExtraction_description]
      by_cases hd : truthyStr e.description = true
      · rw [if_pos hd]
        have hx : m.description = e.description := by
          rw [hm_desc, ha, applyExtraction_description, if_pos hd]
        rw [hx]
      · rw [if_neg hd]
    · rw [applyExtraction_start]
      cases hx : e.start_time with
      | some s =>
        have haS : a.start_date = some s := by
          rw [ha, applyExtraction_start, hx]
        have hmS : m.start_date = some s := by
          rw [hm_start, hb, startFallback_of_isSome (by rw [haS]; rfl), haS]
        rw [hmS]
      | none => rfl
    · rw [applyExtraction_end]
      cases hx : e.end_time with
      | some t =>
        have haE : a.end_date = some t := by
          rw [ha, applyExtraction_end, hx]
        have hmE : m.end_date = some t := by
          rw [hm]
          apply deriveEnd_end_of_some
          rw [titleFallback_end, durationFallback_end, hb_end, haE]
        rw [hmE]
      | none => rfl
    · rw [applyExtraction_duration]
      by_cases hd : truthyNat e.duration = true
      · rw [if_pos hd]
        have haD : a.duration_minutes = e.duration := by
          rw [ha, applyExtraction_duration, if_pos hd]
        have hbD : truthyNat b.duration_minutes = true := by
          rw [hb_dur, haD]
          exact hd
        have hx : m.duration_minutes = e.duration := by
          rw [hm, deriveEnd_duration, titleFallback_duration,
            durationFallback_of_truthy hbD, hb_dur, haD]
        rw [hx]
      · rw [if_neg hd]
  rw [hAm]
  have hSm : startFallback P u m = m := by
    by_cases hms : m.start_date.isSome = true
    · exact startFallback_of_isSome hms
    · rcases h with hs | hr
      · exfalso
        have hmS : m.start_date.isSome = true := by
          rw [hm_start, hb, startFallback_of_isSome (haS_of hs)]
          exact haS_of hs
        exact hms hmS
      · have hmn : m.start_date = none := by
          cases hx : m.start_date with
          | none => rfl
          | some v => rw [hx] at hms; simp at hms
        have hbn : b.start_date = none := by rw [← hm_start]; exact hmn
        have hpd : P.parse_date_time u = none := by
          cases hx : P.parse_date_time u with
          | none => rfl
          | some s =>
            exfalso
            have hbS : b.start_date =
                (match a.start_date with
                  | some s' => some s'
                  | none => P.parse_date_time u) := by
              rw [hb, startFallback_start_of_range_none a hr]
            rw [hbn] at hbS
            cases ha' : a.start_date with
            | some v => rw [ha'] at hbS; simp at hbS
            | none => rw [ha', hx] at hbS; simp at hbS
        exact startFallback_keep hr hpd
  rw [hSm, hm, tail_duration_stable, tail_title_stable]
  exact deriveEnd_idem _

theorem collectMerge_idempotent_of_witness :
    collectMerge noParse "hello" emptyExtraction
        (some (collectMerge noParse "hello" emptyExtraction none)) =
      collectMerge noParse "hello" emptyExtraction none :=
  collectMerge_idempotent_of noParse "hello" emptyExtraction none (Or.inr rfl)

end BookingAgent
